import Mathlib

/-
Verification of the DateTimeFilter component
(src/datetimefilter/GeoEDF/connector/filter/DateTimeFilter.py).

The Python code is shallowly embedded below.  Dates and times are modelled
as records of natural numbers; the pandas facilities the code calls
(pd.to_datetime with an explicit format string, Timestamp.strftime,
pd.date_range with a fixed-duration frequency, and to_offset parsing of
frequency aliases) are modelled by executable Lean functions that follow
the documented behavior of those facilities for the inputs the claims
exercise.  Errors are modelled by an inductive type whose constructors
correspond to the distinct GeoEDFError raise sites of the Python code.
-/

namespace DateTimeFilter

/-- A calendar moment: a proleptic-Gregorian date with a time of day.
Mirrors the pandas Timestamp values flowing through the filter. -/
structure Moment where
  year : Nat
  month : Nat
  day : Nat
  hour : Nat
  minute : Nat
  second : Nat
deriving Repr, DecidableEq

/-- Proleptic Gregorian leap-year test (as used by pandas/datetime). -/
def isLeap (y : Nat) : Bool := y % 4 == 0 && (y % 100 != 0 || y % 400 == 0)

/-- Number of days of month m in year y; 0 for a month outside 1..12. -/
def daysInMonth (y m : Nat) : Nat :=
  if m = 2 then (if isLeap y then 29 else 28)
  else if m = 4 ∨ m = 6 ∨ m = 9 ∨ m = 11 then 30
  else if 1 ≤ m ∧ m ≤ 12 then 31 else 0

/-- Number of days in year y. -/
def daysInYear (y : Nat) : Nat := if isLeap y then 366 else 365

/-- Days in the first k months of year y. -/
def cumDays (y : Nat) : Nat → Nat
  | 0 => 0
  | k + 1 => cumDays y k + daysInMonth y (k + 1)

/-- 1-based ordinal day of the moment within its calendar year
(what strftime %j prints, Jan 1 = 1). -/
def dayOfYear (m : Moment) : Nat := cumDays m.year (m.month - 1) + m.day

/-- Recover (month, day-of-month) from a 1-based day of year; fuel-driven
walk over the 12 months.  Returns none if the ordinal day exceeds the
length of the year. -/
def doyToMDGo (y : Nat) : Nat → Nat → Nat → Option (Nat × Nat)
  | 0, _, _ => none
  | fuel + 1, mo, rem =>
    if rem ≤ daysInMonth y mo then some (mo, rem)
    else doyToMDGo y fuel (mo + 1) (rem - daysInMonth y mo)

def doyToMD (y doy : Nat) : Option (Nat × Nat) :=
  if doy = 0 then none else doyToMDGo y 12 1 doy

/-- Number of leap years strictly before year y (y ≥ 1). -/
def leapsBefore (y : Nat) : Nat := (y - 1) / 4 - (y - 1) / 100 + (y - 1) / 400

/-- Proleptic Gregorian ordinal of the date (Jan 1 of year 1 = 1),
matching Python datetime.toordinal. -/
def toOrdinal (m : Moment) : Nat := (m.year - 1) * 365 + leapsBefore m.year + dayOfYear m

/-- Seconds since midnight of ordinal day 1. -/
def secIdx (m : Moment) : Nat :=
  (toOrdinal m - 1) * 86400 + m.hour * 3600 + m.minute * 60 + m.second

/-- Normalize (year, 1-based day count) by rolling whole years forward;
fuel bounds the number of year steps. -/
def normDoy : Nat → Nat → Nat → Nat × Nat
  | 0, y, r => (y, r)
  | fuel + 1, y, r =>
    if r ≤ daysInYear y then (y, r) else normDoy fuel (y + 1) (r - daysInYear y)

/-- Inverse of secIdx on valid moments. -/
def fromSecIdx (t : Nat) : Moment :=
  let days := t / 86400
  let yd := normDoy (days + 2) 1 (days + 1)
  let md := (doyToMD yd.1 yd.2).getD (1, 1)
  ⟨yd.1, md.1, md.2, t % 86400 / 3600, t % 86400 % 3600 / 60, t % 60⟩

/-! ### strptime-style parsing of mm/dd/yyyy [hh:mm:ss]

Models pd.to_datetime(s, format=...) which uses the stdlib strptime
grammar: %m and %d match one or two digits, %Y matches exactly four
digits, the whole string must be consumed, and the matched fields must
form a valid calendar date (else ValueError). -/

def digitVal (c : Char) : Nat := c.toNat - 48

/-- Read one or two digits (greedy), as strptime numeric fields do. -/
def readNum2 : List Char → Option (Nat × List Char)
  | [] => none
  | c :: rest =>
    if c.isDigit then
      match rest with
      | c2 :: rest2 =>
        if c2.isDigit then some (digitVal c * 10 + digitVal c2, rest2)
        else some (digitVal c, c2 :: rest2)
      | [] => some (digitVal c, [])
    else none

/-- Read exactly four digits, as strptime %Y does. -/
def readNum4 : List Char → Option (Nat × List Char)
  | a :: b :: c :: d :: rest =>
    if a.isDigit && b.isDigit && c.isDigit && d.isDigit then
      some (((digitVal a * 10 + digitVal b) * 10 + digitVal c) * 10 + digitVal d, rest)
    else none
  | _ => none

def expectCh (ch : Char) : List Char → Option (List Char)
  | c :: rest => if c = ch then some rest else none
  | [] => none

/-- Parse the trailing time-of-day part (a space then hh:mm:ss), consuming
the whole remainder. -/
def parseTimePart (cs : List Char) : Option (Nat × Nat × Nat) := do
  let cs ← expectCh ' ' cs
  let (h, cs) ← readNum2 cs
  if 24 ≤ h then none
  else do
    let cs ← expectCh ':' cs
    let (mi, cs) ← readNum2 cs
    if 60 ≤ mi then none
    else do
      let cs ← expectCh ':' cs
      let (s, cs) ← readNum2 cs
      if 60 ≤ s then none
      else match cs with
        | [] => some (h, mi, s)
        | _ => none

/-- Parse a date string in mm/dd/yyyy form, with a time-of-day part when
hasTime is true.  Models the two pd.to_datetime calls of the filter. -/
def parsePy (hasTime : Bool) (s : String) : Option Moment := do
  let cs := s.data
  let (mo, cs) ← readNum2 cs
  if mo < 1 ∨ 12 < mo then none
  else do
    let cs ← expectCh '/' cs
    let (d, cs) ← readNum2 cs
    if d < 1 then none
    else do
      let cs ← expectCh '/' cs
      let (y, cs) ← readNum4 cs
      if y < 1 then none
      else if daysInMonth y mo < d then none
      else if hasTime then do
        let (h, mi, sec) ← parseTimePart cs
        some ⟨y, mo, d, h, mi, sec⟩
      else match cs with
        | [] => some ⟨y, mo, d, 0, 0, 0⟩
        | _ => none

/-! ### strftime-style formatting -/

/-- Left-pad a number with zeros to the given width. -/
def padNum (w n : Nat) : List Char :=
  let s := (toString n).data
  List.replicate (w - s.length) '0' ++ s

/-- Expansion of one % directive.  %Y is unpadded (glibc behavior);
unknown directives are passed through verbatim. -/
def strfDir (m : Moment) : Char → List Char
  | 'Y' => (toString m.year).data
  | 'm' => padNum 2 m.month
  | 'd' => padNum 2 m.day
  | 'H' => padNum 2 m.hour
  | 'M' => padNum 2 m.minute
  | 'S' => padNum 2 m.second
  | 'j' => padNum 3 (dayOfYear m)
  | '%' => ['%']
  | c => ['%', c]

def strfGo (m : Moment) : List Char → List Char
  | [] => []
  | ['%'] => ['%']
  | '%' :: c :: rest => strfDir m c ++ strfGo m rest
  | c :: rest => c :: strfGo m rest

/-- Timestamp.strftime with the user pattern. -/
def strftime (pat : String) (m : Moment) : String := String.mk (strfGo m pat.data)

/-! ### Errors, configuration and construction -/

/-- One constructor per distinct GeoEDFError raise site of the Python
class: the two construction-time checks, the date-parsing handler, and
the two handlers (ValueError / bare except) wrapping the generation. -/
inductive GeoEDFError where
  | requiredMissing (param : String)
  | missingPeriod
  | invalidDate
  | applyError
  | applyUnknown
deriving Repr, DecidableEq

/-- The keyword arguments the host hands to the constructor; absent keys
are none. -/
structure Kwargs where
  pattern : Option String
  start : Option String
  endVal : Option String
  period : Option String
  has_time : Option Bool
  exact_dates : Option Bool
deriving Repr, DecidableEq

/-- The attributes the constructor leaves on a successfully built filter
object (defaults applied). -/
structure Config where
  pattern : String
  start : String
  endVal : Option String
  period : Option String
  has_time : Bool
  exact_dates : Bool
deriving Repr, DecidableEq

/-- The constructor checks: required parameters in order, then the
end-implies-period check, then defaulting of the two flags.  No date
string is examined here. -/
def init (kw : Kwargs) : Except GeoEDFError Config :=
  match kw.pattern with
  | none => .error (.requiredMissing "pattern")
  | some pat =>
    match kw.start with
    | none => .error (.requiredMissing "start")
    | some st =>
      if kw.endVal.isSome && kw.period.isNone then .error .missingPeriod
      else .ok { pattern := pat, start := st, endVal := kw.endVal, period := kw.period,
                 has_time := kw.has_time.getD false, exact_dates := kw.exact_dates.getD false }

/-! ### Period handling -/

/-- Python s[-1:] viewed as an optional character. -/
def pyLastChar (p : String) : Option Char := p.data.getLast?

/-- Python int(s): an optional sign followed by at least one digit. -/
def pyInt (s : String) : Option Int :=
  let (neg, cs) := match s.data with
    | '-' :: r => (true, r)
    | '+' :: r => (false, r)
    | r => (false, r)
  if cs.isEmpty || !cs.all Char.isDigit then none
  else
    let n : Nat := cs.foldl (fun a c => a * 10 + digitVal c) 0
    some (if neg then -(n : Int) else (n : Int))

/-- Python floor mod (sign of the divisor), as the % operator behaves. -/
def pyMod (a n : Int) : Int := Int.fmod a n

/-- Python math.ceil(a / n) for positive n (exact for the ranges the
filter produces). -/
def pyCeilDiv (a n : Int) : Int := (a + n - 1).fdiv n

/-- pandas frequency kinds: fixed-duration ticks (whole seconds), and
other recognized aliases (calendar-anchored or sub-second) whose stepping
no claim exercises. -/
inductive FreqKind where
  | tick (unitSeconds : Nat)
  | other
deriving Repr, DecidableEq

/-- Recognized pandas frequency aliases (unit part of the period
string). -/
def freqAlias : String → Option FreqKind
  | "D" => some (.tick 86400)
  | "d" => some (.tick 86400)
  | "H" => some (.tick 3600)
  | "h" => some (.tick 3600)
  | "T" => some (.tick 60)
  | "t" => some (.tick 60)
  | "min" => some (.tick 60)
  | "S" => some (.tick 1)
  | "s" => some (.tick 1)
  | "W" => some .other
  | "w" => some .other
  | "M" => some .other
  | "MS" => some .other
  | "Y" => some .other
  | "y" => some .other
  | "A" => some .other
  | "Q" => some .other
  | "q" => some .other
  | "B" => some .other
  | "L" => some .other
  | "ms" => some .other
  | "U" => some .other
  | "us" => some .other
  | "N" => some .other
  | "ns" => some .other
  | _ => none

/-- pandas to_offset on a simple "<optional sign><digits><alias>" string:
the magnitude (default 1) and the unit kind; none means to_offset raises
ValueError. -/
def toOffset (p : String) : Option (Int × FreqKind) :=
  let (neg, signed, cs) := match p.data with
    | '-' :: r => (true, true, r)
    | '+' :: r => (false, true, r)
    | r => (false, false, r)
  let digits := cs.takeWhile Char.isDigit
  let rest := cs.dropWhile Char.isDigit
  match freqAlias (String.mk rest) with
  | none => none
  | some k =>
    if digits.isEmpty then
      if signed then none else some (1, k)
    else
      let n : Nat := digits.foldl (fun a c => a * 10 + digitVal c) 0
      some (if neg then -(n : Int) else (n : Int), k)

/-! ### The filter pipeline -/

/-- Ordinal of the first midnight representable as a pandas Timestamp:
Timestamp.min is 1677-09-21 00:12:43, so the earliest representable
midnight is 1677-09-22. -/
def tsMinOrd : Nat := toOrdinal ⟨1677, 9, 22, 0, 0, 0⟩

/-- Ordinal of the last midnight representable as a pandas Timestamp:
Timestamp.max is 2262-04-11 23:47:16. -/
def tsMaxOrd : Nat := toOrdinal ⟨2262, 4, 11, 0, 0, 0⟩

/-- Reconstruction pd.to_datetime('<doy>/<year>', format='%j/%Y'): the
day-of-year string is produced unpadded by %d and the year by
strftime('%Y') (unpadded on glibc), while strptime %j matches at most
three digits and %Y exactly four; so the roundtrip succeeds exactly for
four-digit years, an ordinal day within the year, and a resulting date
representable as a pandas Timestamp (OutOfBoundsDatetime, a ValueError
subclass, is raised outside 1677-09-21..2262-04-11).  The reconstruction
resets the time of day. -/
def momentOfDoy (doy : Int) (y : Nat) : Option Moment :=
  if 1000 ≤ y ∧ y ≤ 9999 ∧ 1 ≤ doy ∧ doy ≤ (daysInYear y : Int) then
    match doyToMD y doy.toNat with
    | some md =>
      let m : Moment := ⟨y, md.1, md.2, 0, 0, 0⟩
      if tsMinOrd ≤ toOrdinal m ∧ toOrdinal m ≤ tsMaxOrd then some m else none
    | none => none
  else none

/-- The start/end parsing stage (first try block of filter()). -/
def parsePhase (c : Config) : Except GeoEDFError (Moment × Option Moment) :=
  match parsePy c.has_time c.start with
  | none => .error .invalidDate
  | some s =>
    match c.endVal with
    | none => .ok (s, none)
    | some es =>
      match parsePy c.has_time es with
      | none => .error .invalidDate
      | some e => .ok (s, some e)

/-- The day-of-year realignment (lines 96-104).  Faithful to the Python
control flow: period None makes period[-1:] raise TypeError (bare except,
"Unknown error"); a non-integer magnitude makes int() raise ValueError;
magnitude 0 makes % raise ZeroDivisionError (bare except); a negative
magnitude gives a non-positive Python remainder, so no realignment. -/
def alignStep (c : Config) (d : Moment) : Except GeoEDFError Moment :=
  if c.exact_dates then .ok d
  else
    match c.period with
    | none => .error .applyUnknown
    | some p =>
      if pyLastChar p = some 'D' then
        match pyInt (p.dropRight 1) with
        | none => .error .applyError
        | some n =>
          if n = 0 then .error .applyUnknown
          else
            let doy : Int := (dayOfYear d : Int)
            if 0 < pyMod (doy - 1) n then
              match momentOfDoy (pyCeilDiv (doy - 1) n * n + 1) d.year with
              | some m2 => .ok m2
              | none => .error .applyError
            else .ok d
      else .ok d

/-- pandas date_range for a fixed-duration (tick) frequency of the given
signed step in seconds: ascending from start while not past end for a
positive step; a zero step raises (offset did not increment) unless the
range is empty; a negative step descends from start while not before
end. -/
def dateRangeTick (s e : Moment) (step : Int) : Except GeoEDFError (List Moment) :=
  if 0 < step then
    if secIdx e < secIdx s then .ok []
    else .ok ((List.range ((secIdx e - secIdx s) / step.toNat + 1)).map
      (fun k => fromSecIdx (secIdx s + k * step.toNat)))
  else if step < 0 then
    if secIdx s < secIdx e then .ok []
    else .ok ((List.range ((secIdx s - secIdx e) / step.natAbs + 1)).map
      (fun k => fromSecIdx (secIdx s - k * step.natAbs)))
  else
    if secIdx s ≤ secIdx e then .error .applyError else .ok []

/-- The enumeration stage (lines 106-109): a single-element list when end
is absent, otherwise pd.date_range(start, end, freq=period).  Frequencies
recognized by to_offset but not fixed-duration (calendar-anchored or
sub-second) are outside every claim and modelled as an empty
enumeration. -/
def enumerate (c : Config) (s : Moment) (e? : Option Moment) : Except GeoEDFError (List Moment) :=
  match e? with
  | none => .ok [s]
  | some e =>
    match c.period with
    | none => .error .applyError
    | some p =>
      match toOffset p with
      | none => .error .applyError
      | some (n, .tick u) => dateRangeTick s e (n * (u : Int))
      | some (_, .other) => .ok []

/-- The whole filter() body, threading the values list the Python loop
appends to (self.values, initialized to [] by the constructor). -/
def filterAppend (c : Config) (values : List String) : Except GeoEDFError (List String) :=
  match parsePhase c with
  | .error e => .error e
  | .ok (s, e?) =>
    match alignStep c s with
    | .error e => .error e
    | .ok s2 =>
      match enumerate c s2 e? with
      | .error e => .error e
      | .ok dates => .ok (dates.foldl (fun acc dt => acc ++ [strftime c.pattern dt]) values)

/-- One generation run from a freshly constructed object (values = []). -/
def filterRun (c : Config) : Except GeoEDFError (List String) := filterAppend c []

/-- Full lifecycle: construct from keyword arguments, then generate. -/
def runDateTimeFilter (kw : Kwargs) : Except GeoEDFError (List String) :=
  match init kw with
  | .error e => .error e
  | .ok c => filterRun c

end DateTimeFilter

deriving instance DecidableEq for Except

namespace DateTimeFilter

/-! ### Shared lemmas -/

lemma foldl_append_strings (f : Moment → String) (l : List Moment) (v : List String) :
    l.foldl (fun acc dt => acc ++ [f dt]) v
      = v ++ l.foldl (fun acc dt => acc ++ [f dt]) [] := by
  induction l generalizing v with
  | nil => simp
  | cons x xs ih =>
    simp only [List.foldl]
    rw [ih (v ++ [f x]), ih ([] ++ [f x])]
    simp

/-- Characterization of the realignment branch of alignStep. -/
lemma alignStep_realigns (c : Config) (d : Moment) (p : String) (n : Int) (m2 : Moment)
    (hex : c.exact_dates = false) (hp : c.period = some p)
    (hD : pyLastChar p = some 'D') (hn : pyInt (p.dropRight 1) = some n) (hn0 : ¬ n = 0)
    (hrem : 0 < pyMod ((dayOfYear d : Int) - 1) n)
    (hm2 : momentOfDoy (pyCeilDiv ((dayOfYear d : Int) - 1) n * n + 1) d.year = some m2) :
    alignStep c d = .ok m2 := by
  unfold alignStep
  rw [hex, hp]
  simp only [Bool.false_eq_true, if_false, hD, if_pos, hn]
  rw [if_neg hn0, if_pos hrem, hm2]

/-- momentOfDoy at ordinal day 11 of a year between 1678 and 2262 (the
years whose January 11 is representable as a pandas Timestamp, which
covers every start date the program can parse without raising) is
January 11 of that year. -/
lemma momentOfDoy_eleven (y : Nat) (h1 : 1678 ≤ y) (h2 : y ≤ 2262) :
    momentOfDoy 11 y = some ⟨y, 1, 11, 0, 0, 0⟩ := by
  have hcond : tsMinOrd ≤ toOrdinal ⟨y, 1, 11, 0, 0, 0⟩ ∧
      toOrdinal ⟨y, 1, 11, 0, 0, 0⟩ ≤ tsMaxOrd := by
    have hmin : tsMinOrd = 612412 := by decide
    have hmax : tsMaxOrd = 825914 := by decide
    rw [hmin, hmax]
    simp only [toOrdinal, leapsBefore, dayOfYear, cumDays]
    omega
  have hmd : doyToMD y 11 = some (1, 11) := by
    norm_num [doyToMD, doyToMDGo, daysInMonth]
  unfold momentOfDoy
  rw [if_pos]
  · rw [show Int.toNat 11 = 11 from rfl, hmd]
    dsimp only
    rw [if_pos hcond]
  · refine ⟨by omega, by omega, by norm_num, ?_⟩
    unfold daysInYear
    split <;> norm_num

/-! ### The claims -/

def c2cfg : Config :=
  { pattern := "%Y-%m-%d", start := "01/07/2021", endVal := none, period := some "5D",
    has_time := false, exact_dates := false }

/-- Claim C2 counterexample.  With exact_dates false and period 5D, a
start on day-of-year 7 is realigned to day-of-year 11, not 6 as the
claim's worked example states: ceil((7-1)/5) = 2, so the new ordinal day
is 2*5+1 = 11. -/
theorem c2_realign_counterexample :
    alignStep c2cfg ⟨2021, 1, 7, 0, 0, 0⟩ = .ok ⟨2021, 1, 11, 0, 0, 0⟩ ∧
    dayOfYear ⟨2021, 1, 11, 0, 0, 0⟩ = 11 ∧
    ¬ alignStep c2cfg ⟨2021, 1, 7, 0, 0, 0⟩ = .ok ⟨2021, 1, 6, 0, 0, 0⟩ := by
  decide

/-- Claim C2 as amended.  With exact_dates false and period 5D, a start
date on day-of-year 7 of a year is realigned to day-of-year 11 of the
same year: (7-1) mod 5 = 1 > 0 and ceil(6/5)*5+1 = 11.  The year range
1678..2262 contains every year whose day-7 start the program can parse
without raising, and keeps the reconstructed January 11 inside the
pandas Timestamp range. -/
theorem c2_realign_amended (c : Config) (d : Moment)
    (hex : c.exact_dates = false) (hp : c.period = some "5D")
    (hdoy : dayOfYear d = 7) (hy1 : 1678 ≤ d.year) (hy2 : d.year ≤ 2262) :
    alignStep c d = .ok ⟨d.year, 1, 11, 0, 0, 0⟩ := by
  refine alignStep_realigns c d "5D" 5 ⟨d.year, 1, 11, 0, 0, 0⟩ hex hp (by decide) (by decide)
    (by omega) ?_ ?_
  · rw [hdoy]; decide
  · rw [hdoy]
    have h11 : pyCeilDiv ((7 : Nat) - 1) 5 * 5 + 1 = (11 : Int) := by decide
    rw [h11]
    exact momentOfDoy_eleven d.year hy1 hy2

def c2wcfg : Config :=
  { pattern := "%Y-%m-%d", start := "01/07/2022", endVal := none, period := some "5D",
    has_time := false, exact_dates := false }

/-- Witness for the amended C2: Jan 7 2022 realigns to Jan 11 2022. -/
theorem c2_realign_amended_witness :
    dayOfYear ⟨2022, 1, 7, 0, 0, 0⟩ = 7 ∧
    alignStep c2wcfg ⟨2022, 1, 7, 0, 0, 0⟩ = .ok ⟨2022, 1, 11, 0, 0, 0⟩ :=
  ⟨by decide,
   c2_realign_amended c2wcfg ⟨2022, 1, 7, 0, 0, 0⟩ rfl rfl (by decide) (by decide) (by decide)⟩

def c3kw : Kwargs :=
  { pattern := some "%Y-%m-%d", start := some "01/01/2020", endVal := none, period := none,
    has_time := none, exact_dates := none }

/-- Claim C3 (code bug evidence).  A valid configuration without end and
without period (the documented default use) does not produce the
single-element output the claim states: filter() evaluates
self.period[-1:] with period = None, the TypeError is caught by the bare
except handler and generation fails with the unknown-error GeoEDFError. -/
theorem c3_no_end_default_crash :
    runDateTimeFilter c3kw = .error .applyUnknown := by decide

def c4kw : Kwargs :=
  { pattern := some "%Y-%m-%d", start := some "01/01/2020", endVal := some "01/10/2020",
    period := some "5D", has_time := none, exact_dates := some true }

set_option maxRecDepth 40000 in
/-- Claim C4.  pattern %Y-%m-%d, start 01/01/2020, end 01/10/2020,
period 5D, exact_dates true: the generation step produces exactly
["2020-01-01", "2020-01-06"] (5-day steps from the literal start, moments
past the end excluded). -/
theorem c4_end_to_end :
    runDateTimeFilter c4kw = .ok ["2020-01-01", "2020-01-06"] := by decide

/-- Claim C5.  Whenever exact_dates is true, or the period is present
with a final character other than D, the day-of-year alignment leaves the
literal parsed start date unmodified as the first enumeration point. -/
theorem c5_alignment_disabled (c : Config) (d : Moment)
    (h : c.exact_dates = true ∨ ∃ p, c.period = some p ∧ ¬ pyLastChar p = some 'D') :
    alignStep c d = .ok d := by
  unfold alignStep
  rcases h with h | ⟨p, hp, hne⟩
  · rw [h]
    simp
  · cases hc : c.exact_dates with
    | true => simp
    | false =>
      rw [hp]
      simp only [Bool.false_eq_true, if_false]
      rw [if_neg hne]

def c5cfg : Config :=
  { pattern := "%Y-%m-%d", start := "01/07/2020", endVal := some "12/31/2020",
    period := some "2M", has_time := false, exact_dates := false }

/-- Witness for C5 with a month-unit period: no realignment. -/
theorem c5_alignment_disabled_witness :
    (¬ pyLastChar "2M" = some 'D') ∧
    alignStep c5cfg ⟨2020, 1, 7, 0, 0, 0⟩ = .ok ⟨2020, 1, 7, 0, 0, 0⟩ :=
  ⟨by decide,
   c5_alignment_disabled c5cfg ⟨2020, 1, 7, 0, 0, 0⟩ (.inr ⟨"2M", rfl, by decide⟩)⟩

/-- Claim C6.  For every configuration with end present but period
absent, construction fails with the missing-period error; the statement
holds for arbitrary (even unparseable) start and end strings, because the
check runs in the constructor, before any date parsing. -/
theorem c6_missing_period (pat st es : String) (ht ed : Option Bool) :
    init { pattern := some pat, start := some st, endVal := some es, period := none,
           has_time := ht, exact_dates := ed } = .error .missingPeriod := rfl

/-- Claim C7.  Whenever the start string (or a present end string) is not
accepted by the has_time-selected strptime format or denotes an invalid
calendar date, the generation step fails with the invalid-date error and
produces no output. -/
theorem c7_invalid_date (c : Config)
    (h : parsePy c.has_time c.start = none ∨
         ∃ es, c.endVal = some es ∧ parsePy c.has_time es = none) :
    filterRun c = .error .invalidDate := by
  unfold filterRun filterAppend parsePhase
  rcases h with hs | ⟨es, hes, hpe⟩
  · rw [hs]
  · cases hps : parsePy c.has_time c.start with
    | none => rfl
    | some s =>
      dsimp only
      rw [hes]
      dsimp only
      rw [hpe]

def c7cfg : Config :=
  { pattern := "%Y-%m-%d", start := "13/45/2020", endVal := none, period := some "1D",
    has_time := false, exact_dates := false }

/-- Witness for C7 at the spec's bad-date example start 13/45/2020. -/
theorem c7_invalid_date_witness :
    parsePy false "13/45/2020" = none ∧ filterRun c7cfg = .error .invalidDate :=
  ⟨by decide, c7_invalid_date c7cfg (.inl (by decide))⟩

def c8kw : Kwargs :=
  { pattern := some "%Y-%m-%d", start := some "01/01/2020", endVal := none,
    period := some "5X", has_time := none, exact_dates := none }

/-- Claim C8 counterexample.  The period 5X has an unrecognized unit, yet
with end absent the period is never consulted: construction succeeds and
the generation step produces ["2020-01-01"] instead of failing. -/
theorem c8_unvalidated_period_counterexample :
    toOffset "5X" = none ∧ runDateTimeFilter c8kw = .ok ["2020-01-01"] := by decide

/-- Claim C8 as amended.  When end is present (and the dates parse), a
period string the date-range facility's offset parser rejects makes the
generation step fail with an error rather than produce output; when end
is absent the period is not validated and generation can succeed despite
an invalid period. -/
theorem c8_invalid_period_amended (c : Config) (es : String) (s e : Moment) (p : String)
    (h1 : c.endVal = some es)
    (h2 : parsePy c.has_time c.start = some s)
    (h3 : parsePy c.has_time es = some e)
    (h4 : c.period = some p) (h5 : toOffset p = none) :
    ∃ err, filterRun c = .error err := by
  unfold filterRun filterAppend parsePhase
  rw [h2]
  dsimp only
  rw [h1]
  dsimp only
  rw [h3]
  dsimp only
  cases halign : alignStep c s with
  | error e2 => exact ⟨e2, rfl⟩
  | ok s2 =>
    refine ⟨.applyError, ?_⟩
    dsimp only
    unfold enumerate
    rw [h4]
    dsimp only
    rw [h5]

def c8acfg : Config :=
  { pattern := "%Y-%m-%d", start := "01/01/2020", endVal := some "01/10/2020",
    period := some "7X", has_time := false, exact_dates := false }

/-- Witness for the amended C8: end present and unit X unrecognized. -/
theorem c8_invalid_period_amended_witness :
    toOffset "7X" = none ∧ ∃ err, filterRun c8acfg = .error err :=
  ⟨by decide,
   c8_invalid_period_amended c8acfg "01/10/2020" ⟨2020, 1, 1, 0, 0, 0⟩ ⟨2020, 1, 10, 0, 0, 0⟩
     "7X" rfl (by decide) (by decide) rfl (by decide)⟩

/-- Claim C9.  Generation is a pure, deterministic function of the
configuration: two invocations from freshly constructed state give equal
outputs, and more strongly the strings a run appends to the values list
depend only on the configuration, not on the prior list contents. -/
theorem c9_deterministic (c : Config) :
    filterRun c = filterRun c ∧
    ∀ v, filterAppend c v = Except.map (fun out => v ++ out) (filterAppend c []) := by
  refine ⟨rfl, fun v => ?_⟩
  unfold filterAppend
  cases parsePhase c with
  | error e => rfl
  | ok se =>
    obtain ⟨s, e?⟩ := se
    dsimp only
    cases alignStep c s with
    | error e => rfl
    | ok s2 =>
      dsimp only
      cases enumerate c s2 e? with
      | error e => rfl
      | ok dates =>
        dsimp only [Except.map]
        rw [foldl_append_strings]

def c10cfg : Config :=
  { pattern := "%Y-%m-%d", start := "01/01/2020", endVal := some "01/10/2020",
    period := some "5d", has_time := false, exact_dates := false }

set_option maxRecDepth 40000 in
/-- Claim C10.  The unit test for day-of-year alignment is
case-sensitive: with exact_dates false and a period ending in lowercase
d, no realignment is performed, while enumeration with such a period
still proceeds (period 5d steps by 5 days exactly as 5D does). -/
theorem c10_lowercase_unit (c : Config) (d : Moment) (p : String)
    (h1 : c.exact_dates = false) (h2 : c.period = some p) (h3 : pyLastChar p = some 'd') :
    alignStep c d = .ok d ∧ filterRun c10cfg = .ok ["2020-01-01", "2020-01-06"] := by
  constructor
  · have hne : ¬ pyLastChar p = some 'D' := by rw [h3]; decide
    unfold alignStep
    rw [h1, h2]
    simp only [Bool.false_eq_true, if_false]
    rw [if_neg hne]
  · decide

/-- Witness for C10 with period 5d. -/
theorem c10_lowercase_unit_witness :
    pyLastChar "5d" = some 'd' ∧
    alignStep c10cfg ⟨2020, 1, 7, 0, 0, 0⟩ = .ok ⟨2020, 1, 7, 0, 0, 0⟩ ∧
    filterRun c10cfg = .ok ["2020-01-01", "2020-01-06"] :=
  ⟨by decide,
   (c10_lowercase_unit c10cfg ⟨2020, 1, 7, 0, 0, 0⟩ "5d" rfl rfl (by decide)).1,
   (c10_lowercase_unit c10cfg ⟨2020, 1, 7, 0, 0, 0⟩ "5d" rfl rfl (by decide)).2⟩

end DateTimeFilter
